import Mathlib

/-!
Shallow embedding of `src/oura/auth.py`: the three client classes
`OuraOAuth2Client`, `OAuthRequestHandler` and `PersonalRequestHandler`.

The HTTP transport and the OAuth2 provider are external collaborators; a run's
interaction with them is captured by an explicit environment (what each outbound
call would return), and each method is embedded as a function from that
environment to the list of outbound calls it issues (its trace) together with
its outcome.
-/

namespace Oura

/-- `OuraOAuth2Client.AUTHORIZE_BASE_URL`. -/
def AUTHORIZE_BASE_URL : String := "https://cloud.ouraring.com/oauth/authorize"

/-- `TOKEN_BASE_URL`, shared by `OuraOAuth2Client` and `OAuthRequestHandler`. -/
def TOKEN_BASE_URL : String := "https://api.ouraring.com/oauth/token"

/-- `TOKEN_REVOKE_URL`, shared by `OAuthRequestHandler` and `PersonalRequestHandler`. -/
def TOKEN_REVOKE_URL : String := "https://api.ouraring.com/oauth/revoke"

/-- `OuraOAuth2Client.SCOPE`: the fixed default scope list. -/
def SCOPE : List String :=
  ["email", "personal", "daily", "heartrate", "workout", "tag", "session", "resilience"]

/-- A token as the OAuth2 layer returns it: the key/value dict of the provider's
token response (`access_token`, `refresh_token`, ...). -/
abbrev TokenDict := List (String × String)

/-- Errors of the authorization-code exchange: the provider rejects the code or
answers with a non-2xx status. -/
inductive AuthError where
  | invalidGrant
  | httpError (status : Nat)
deriving DecidableEq, Repr

/-- Modelled from the spec: the provider token endpoint as
`OAuth2Session.fetch_token` (requests_oauthlib, an external collaborator not
under src/) exposes it.  A valid authorization code yields a token dict that
carries `access_token` (and a refresh token); an invalid code (expired, already
used, mismatched redirect) or a non-2xx response fails with an `AuthError`. -/
structure TokenEndpoint where
  validCodes : List String
  issuedAccess : String → String
  issuedRefresh : String → String

/-- Modelled from the spec: one `fetch_token` call against a `TokenEndpoint`. -/
def TokenEndpoint.fetchToken (ep : TokenEndpoint) (_tokenUrl code _clientSecret : String) :
    Except AuthError TokenDict :=
  if code ∈ ep.validCodes then
    .ok [("access_token", ep.issuedAccess code), ("refresh_token", ep.issuedRefresh code)]
  else
    .error .invalidGrant

/-- `OuraOAuth2Client.__init__` state: the credentials from the portal. -/
structure OuraOAuth2Client where
  client_id : String
  client_secret : String

/-- `OuraOAuth2Client.fetch_access_token`: delegates to the session's
`fetch_token` with the token URL, the code and the client secret, returning its
result (or its error) unchanged. -/
def OuraOAuth2Client.fetch_access_token (c : OuraOAuth2Client) (ep : TokenEndpoint)
    (code : String) : Except AuthError TokenDict :=
  ep.fetchToken TOKEN_BASE_URL code c.client_secret

/-- Modelled from the spec: the structured content of the URL
`OAuth2Session.authorization_url` (external collaborator) builds — the base
endpoint plus the query parameters `client_id`, every scope value, the optional
`redirect_uri`, and the anti-forgery `state`. -/
structure AuthUrl where
  base : String
  client_id : String
  scope : List String
  redirect_uri : Option String
  state : String
deriving DecidableEq

/-- Modelled from the spec: `OAuth2Session.authorization_url` on the session's
current scope and redirect URI. -/
def authorization_url (base client_id : String) (scope : List String)
    (redirect_uri : Option String) (state : String) : AuthUrl :=
  ⟨base, client_id, scope, redirect_uri, state⟩

/-- `OuraOAuth2Client.authorize_endpoint`: `self.session.scope = scope or
self.SCOPE` (Python `or`: `None` or an empty list falls back to the default
`SCOPE`), the redirect URI is set when given, and the session builds the
authorization URL; returns the URL together with the state token. -/
def OuraOAuth2Client.authorize_endpoint (c : OuraOAuth2Client) (scope : Option (List String))
    (redirect_uri : Option String) (state : String) : AuthUrl × String :=
  let s := match scope with
    | none => SCOPE
    | some l => if l = [] then SCOPE else l
  (authorization_url AUTHORIZE_BASE_URL c.client_id s redirect_uri state, state)

/-- What the transport returns for one `self._session.request(method, url)`
call: a response with a status code, or a raised transport exception. -/
inductive HttpResult where
  | ok (status : Nat)
  | exn
deriving DecidableEq, Repr

/-- What the refresh endpoint returns for one `self._session.refresh_token`
call: a new token dict, or a rejection of the refresh token (the
`RefreshError` the OAuth2 layer raises). -/
inductive RefreshResult where
  | ok (token : TokenDict)
  | err
deriving DecidableEq, Repr

/-- The external world of one `make_request` call: what the transport would
return for the first request, what the refresh endpoint would return, and what
the transport would return for the retried request. -/
structure Env where
  first : HttpResult
  refresh : RefreshResult
  second : HttpResult
deriving DecidableEq, Repr

/-- An observable step of a run: an HTTP request issued through the session, a
call to the provider's refresh endpoint, or an invocation of the caller's
token-updater callback with the new token. -/
inductive Event where
  | httpRequest (method url : String)
  | refreshCall
  | callbackInvoked (token : TokenDict)
deriving DecidableEq, Repr

/-- How a `make_request` call ends: a response handed back to the caller, a
propagated transport exception, or a propagated `RefreshError`. -/
inductive Outcome where
  | response (status : Nat)
  | transportExn
  | refreshError
deriving DecidableEq, Repr

namespace OAuthRequestHandler

/-- `OAuthRequestHandler._refresh_token`: one call to the refresh endpoint.  On
rejection the `RefreshError` propagates (`none`); on success, if a
`token_updater` was supplied at construction, it is invoked with the new token,
and the token is returned. -/
def refresh_token (r : RefreshResult) (hasUpdater : Bool) : List Event × Option TokenDict :=
  match r with
  | .err => ([.refreshCall], none)
  | .ok t => ([.refreshCall] ++ (if hasUpdater then [.callbackInvoked t] else []), some t)

/-- `OAuthRequestHandler.make_request`: issue the request; if the response
status is 401, call `_refresh_token` and issue the original request once more,
returning the second response.  A transport exception or a refresh failure
propagates to the caller. -/
def make_request (env : Env) (hasUpdater : Bool) (url method : String) :
    List Event × Outcome :=
  match env.first with
  | .exn => ([.httpRequest method url], .transportExn)
  | .ok s =>
    if s = 401 then
      match refresh_token env.refresh hasUpdater with
      | (evs, none) => ([.httpRequest method url] ++ evs, .refreshError)
      | (evs, some _) =>
        match env.second with
        | .exn => ([.httpRequest method url] ++ evs ++ [.httpRequest method url], .transportExn)
        | .ok s2 => ([.httpRequest method url] ++ evs ++ [.httpRequest method url], .response s2)
    else
      ([.httpRequest method url], .response s)

/-- `OAuthRequestHandler.make_request_v2`: `return self.make_request(url, method)`. -/
def make_request_v2 (env : Env) (hasUpdater : Bool) (url method : String) :
    List Event × Outcome :=
  make_request env hasUpdater url method

/-- `OAuthRequestHandler.revoke_token`: a single
`self._session.request("POST", TOKEN_REVOKE_URL)`, with no 401 handling. -/
def revoke_token (r : HttpResult) : List Event × Outcome :=
  ([.httpRequest "POST" TOKEN_REVOKE_URL],
   match r with
   | .exn => .transportExn
   | .ok s => .response s)

end OAuthRequestHandler

/-- The number of HTTP requests a trace issues. -/
def countHttp (tr : List Event) : Nat :=
  (tr.filter fun e => match e with | .httpRequest _ _ => true | _ => false).length

/-- The number of refresh-endpoint calls a trace issues. -/
def countRefresh (tr : List Event) : Nat :=
  (tr.filter fun e => match e with | .refreshCall => true | _ => false).length

/-- The number of token-updater callback invocations in a trace. -/
def countCallback (tr : List Event) : Nat :=
  (tr.filter fun e => match e with | .callbackInvoked _ => true | _ => false).length

/-- The HTTP verb `requests.post` / `requests.get` issue. -/
inductive Verb where
  | GET
  | POST
deriving DecidableEq, Repr

/-- One request as the `requests` library issues it: verb, url, query
parameters and headers.  Each `requests.get` / `requests.post` call issues
exactly one such request. -/
structure HttpRequest where
  verb : Verb
  url : String
  params : List (String × String)
  headers : List (String × String)
deriving DecidableEq, Repr

/-- `PersonalRequestHandler.__init__` state: the one static token. -/
structure PersonalRequestHandler where
  personal_access_token : String
deriving DecidableEq, Repr

namespace PersonalRequestHandler

/-- `PersonalRequestHandler.make_request`: `requests.post` exactly when the
method string equals "POST", else `requests.get`; the token travels as the
`access_token` query parameter and no headers are set. -/
def make_request (h : PersonalRequestHandler) (url method : String) : HttpRequest :=
  { verb := if method = "POST" then .POST else .GET
    url := url
    params := [("access_token", h.personal_access_token)]
    headers := [] }

/-- `PersonalRequestHandler.make_request_v2`: same verb selection; the token
travels as an `Authorization: Bearer` header and no query parameters are set. -/
def make_request_v2 (h : PersonalRequestHandler) (url method : String) : HttpRequest :=
  { verb := if method = "POST" then .POST else .GET
    url := url
    params := []
    headers := [("Authorization", "Bearer " ++ h.personal_access_token)] }

/-- `PersonalRequestHandler.revoke_token`:
`self.make_request_v2(self.TOKEN_REVOKE_URL, "POST")`. -/
def revoke_token (h : PersonalRequestHandler) : HttpRequest :=
  h.make_request_v2 TOKEN_REVOKE_URL "POST"

end PersonalRequestHandler

/-- A method call on a `PersonalRequestHandler` object. -/
inductive PCall where
  | makeRequest (url method : String)
  | makeRequestV2 (url method : String)
  | revokeToken
deriving DecidableEq, Repr

/-- One method call on a `PersonalRequestHandler`: the Python methods read
`self.personal_access_token` and assign no attribute, so the object after the
call is the object before it, paired with the request the call issues. -/
def PersonalRequestHandler.step (h : PersonalRequestHandler) :
    PCall → PersonalRequestHandler × HttpRequest
  | .makeRequest u m => (h, h.make_request u m)
  | .makeRequestV2 u m => (h, h.make_request_v2 u m)
  | .revokeToken => (h, h.revoke_token)

/-- The object state after a sequence of method calls. -/
def PersonalRequestHandler.run (h : PersonalRequestHandler) :
    List PCall → PersonalRequestHandler
  | [] => h
  | c :: cs => ((h.step c).1).run cs

/-! ## Theorems -/

/-- C1: when the first request returns 401 and the refresh succeeds,
`make_request` performs exactly one refresh call and exactly one retry (two
HTTP requests in all), and with a token updater supplied the callback is
invoked with the new token between the refresh and the retry request. -/
theorem C1_refresh_and_retry_once (env : Env) (hasUpdater : Bool) (url method : String)
    (tok : TokenDict) (h1 : env.first = .ok 401) (h2 : env.refresh = .ok tok) :
    countRefresh (OAuthRequestHandler.make_request env hasUpdater url method).1 = 1 ∧
    countHttp (OAuthRequestHandler.make_request env hasUpdater url method).1 = 2 ∧
    (hasUpdater = true →
      (OAuthRequestHandler.make_request env hasUpdater url method).1 =
        [.httpRequest method url, .refreshCall, .callbackInvoked tok,
         .httpRequest method url]) := by
  rcases env with ⟨f, r, s⟩
  simp only at h1 h2
  subst h1
  subst h2
  rcases s with s2 | _ <;> cases hasUpdater <;>
    simp [OAuthRequestHandler.make_request, OAuthRequestHandler.refresh_token,
      countRefresh, countHttp]

theorem C1_refresh_and_retry_once_witness :
    countRefresh (OAuthRequestHandler.make_request
      ⟨.ok 401, .ok [("access_token", "new")], .ok 200⟩ true "https://api.example/x" "GET").1
        = 1 ∧
    countHttp (OAuthRequestHandler.make_request
      ⟨.ok 401, .ok [("access_token", "new")], .ok 200⟩ true "https://api.example/x" "GET").1
        = 2 ∧
    (true = true →
      (OAuthRequestHandler.make_request
        ⟨.ok 401, .ok [("access_token", "new")], .ok 200⟩ true "https://api.example/x" "GET").1 =
        [.httpRequest "GET" "https://api.example/x", .refreshCall,
         .callbackInvoked [("access_token", "new")],
         .httpRequest "GET" "https://api.example/x"]) :=
  C1_refresh_and_retry_once ⟨.ok 401, .ok [("access_token", "new")], .ok 200⟩ true
    "https://api.example/x" "GET" [("access_token", "new")] rfl rfl

/-- The trace of one `make_request` call never holds more than two HTTP
requests. -/
theorem countHttp_make_request_le_two (env : Env) (hasUpdater : Bool) (url method : String) :
    countHttp (OAuthRequestHandler.make_request env hasUpdater url method).1 ≤ 2 := by
  rcases env with ⟨f, r, s⟩
  rcases f with st | _
  · by_cases hst : st = 401
    · subst hst
      rcases r with tok | _
      · rcases s with s2 | _ <;> cases hasUpdater <;>
          simp [OAuthRequestHandler.make_request, OAuthRequestHandler.refresh_token, countHttp]
      · simp [OAuthRequestHandler.make_request, OAuthRequestHandler.refresh_token, countHttp]
    · simp [OAuthRequestHandler.make_request, hst, countHttp]
  · simp [OAuthRequestHandler.make_request, countHttp]

/-- C2: at most two HTTP requests per `make_request` call, and every failure
other than a single initial 401 reaches the caller unchanged: a transport
exception on the first request propagates with no retry, a non-401 error
status is returned with no retry, and the retried request's result — any
status, a second 401 included, or a transport exception — is returned as-is. -/
theorem C2_failures_propagate_unchanged (env : Env) (hasUpdater : Bool) (url method : String) :
    countHttp (OAuthRequestHandler.make_request env hasUpdater url method).1 ≤ 2 ∧
    (env.first = .exn →
      OAuthRequestHandler.make_request env hasUpdater url method =
        ([.httpRequest method url], .transportExn)) ∧
    (∀ s, env.first = .ok s → s ≠ 401 →
      OAuthRequestHandler.make_request env hasUpdater url method =
        ([.httpRequest method url], .response s)) ∧
    (∀ tok s2, env.first = .ok 401 → env.refresh = .ok tok → env.second = .ok s2 →
      (OAuthRequestHandler.make_request env hasUpdater url method).2 = .response s2) ∧
    (∀ tok, env.first = .ok 401 → env.refresh = .ok tok → env.second = .exn →
      (OAuthRequestHandler.make_request env hasUpdater url method).2 = .transportExn) := by
  refine ⟨countHttp_make_request_le_two env hasUpdater url method, ?_, ?_, ?_, ?_⟩
  · intro hf
    simp [OAuthRequestHandler.make_request, hf]
  · intro s hf hs
    simp [OAuthRequestHandler.make_request, hf, hs]
  · intro tok s2 hf hr hs
    simp [OAuthRequestHandler.make_request, OAuthRequestHandler.refresh_token, hf, hr, hs]
  · intro tok hf hr hs
    simp [OAuthRequestHandler.make_request, OAuthRequestHandler.refresh_token, hf, hr, hs]

/-- C3: when the first request returns 401 and the refresh endpoint rejects
the refresh token, `make_request` ends in the propagated `RefreshError` and
its whole trace is the initial request followed by the failed refresh call —
no retry request and no callback invocation. -/
theorem C3_refresh_failure_is_fatal (env : Env) (hasUpdater : Bool) (url method : String)
    (h1 : env.first = .ok 401) (h2 : env.refresh = .err) :
    OAuthRequestHandler.make_request env hasUpdater url method =
      ([.httpRequest method url, .refreshCall], .refreshError) := by
  rcases env with ⟨f, r, s⟩
  simp only at h1 h2
  subst h1
  subst h2
  simp [OAuthRequestHandler.make_request, OAuthRequestHandler.refresh_token]

theorem C3_refresh_failure_is_fatal_witness :
    OAuthRequestHandler.make_request ⟨.ok 401, .err, .ok 200⟩ true
        "https://api.example/x" "GET" =
      ([.httpRequest "GET" "https://api.example/x", .refreshCall], .refreshError) :=
  C3_refresh_failure_is_fatal ⟨.ok 401, .err, .ok 200⟩ true
    "https://api.example/x" "GET" rfl rfl

/-- C4: `fetch_access_token` on a valid authorization code returns a token
dict carrying `access_token`; on an invalid code, or a code the provider
answers with a non-2xx status, it fails with an `AuthError`. -/
theorem C4_fetch_access_token_exchange (c : OuraOAuth2Client) (ep : TokenEndpoint)
    (code : String) :
    (code ∈ ep.validCodes →
      ∃ d, c.fetch_access_token ep code = .ok d ∧
        (d.lookup "access_token") = some (ep.issuedAccess code)) ∧
    (code ∉ ep.validCodes →
      ∃ e : AuthError, c.fetch_access_token ep code = .error e) := by
  constructor
  · intro hv
    refine ⟨[("access_token", ep.issuedAccess code),
      ("refresh_token", ep.issuedRefresh code)], ?_, ?_⟩
    · simp [OuraOAuth2Client.fetch_access_token, TokenEndpoint.fetchToken, hv]
    · simp [List.lookup]
  · intro hv
    refine ⟨.invalidGrant, ?_⟩
    simp [OuraOAuth2Client.fetch_access_token, TokenEndpoint.fetchToken, hv]

theorem C4_fetch_access_token_exchange_witness :
    ("good" ∈ (TokenEndpoint.mk ["good"] (fun _ => "at") (fun _ => "rt")).validCodes →
      ∃ d, OuraOAuth2Client.fetch_access_token ⟨"id", "secret"⟩
          (TokenEndpoint.mk ["good"] (fun _ => "at") (fun _ => "rt")) "good" = .ok d ∧
        (d.lookup "access_token") = some "at") ∧
    ("good" ∉ (TokenEndpoint.mk ["good"] (fun _ => "at") (fun _ => "rt")).validCodes →
      ∃ e : AuthError, OuraOAuth2Client.fetch_access_token ⟨"id", "secret"⟩
          (TokenEndpoint.mk ["good"] (fun _ => "at") (fun _ => "rt")) "good" = .error e) :=
  C4_fetch_access_token_exchange ⟨"id", "secret"⟩
    (TokenEndpoint.mk ["good"] (fun _ => "at") (fun _ => "rt")) "good"

/-- C5: the authorization URL carries every requested scope value, and an
omitted scope argument falls back to the default `SCOPE` set. -/
theorem C5_authorize_endpoint_scope (c : OuraOAuth2Client) (scope : Option (List String))
    (redirect_uri : Option String) (state : String) :
    (∀ l, scope = some l →
      ∀ x ∈ l, x ∈ (c.authorize_endpoint scope redirect_uri state).1.scope) ∧
    (scope = none →
      (c.authorize_endpoint scope redirect_uri state).1.scope = SCOPE) := by
  constructor
  · rintro l rfl x hx
    by_cases hl : l = []
    · subst hl
      cases hx
    · simpa [OuraOAuth2Client.authorize_endpoint, authorization_url, hl] using hx
  · rintro rfl
    simp [OuraOAuth2Client.authorize_endpoint, authorization_url]

/-- C6: for one token and URL the two personal authentication styles differ:
`make_request` sends the token as the `access_token` query parameter and sets
no headers, `make_request_v2` sends an `Authorization: Bearer` header and no
query parameters, and the two built requests are never equal. -/
theorem C6_personal_two_styles (h : PersonalRequestHandler) (url method : String) :
    (h.make_request url method).params.lookup "access_token"
        = some h.personal_access_token ∧
    (h.make_request url method).headers = [] ∧
    (h.make_request_v2 url method).headers.lookup "Authorization"
        = some ("Bearer " ++ h.personal_access_token) ∧
    (h.make_request_v2 url method).params = [] ∧
    h.make_request url method ≠ h.make_request_v2 url method := by
  refine ⟨?_, rfl, ?_, rfl, ?_⟩
  · simp [PersonalRequestHandler.make_request, List.lookup]
  · simp [PersonalRequestHandler.make_request_v2, List.lookup]
  · simp [PersonalRequestHandler.make_request, PersonalRequestHandler.make_request_v2]

/-- C7: `revoke_token` issues exactly one POST to the revoke endpoint on both
client types; the personal client's revoke uses the bearer-header style. -/
theorem C7_revoke_single_post (r : HttpResult) (h : PersonalRequestHandler) :
    (OAuthRequestHandler.revoke_token r).1 = [.httpRequest "POST" TOKEN_REVOKE_URL] ∧
    h.revoke_token.verb = .POST ∧
    h.revoke_token.url = TOKEN_REVOKE_URL ∧
    h.revoke_token.params = [] ∧
    h.revoke_token.headers.lookup "Authorization"
        = some ("Bearer " ++ h.personal_access_token) := by
  refine ⟨rfl, ?_, rfl, rfl, ?_⟩
  · simp [PersonalRequestHandler.revoke_token, PersonalRequestHandler.make_request_v2]
  · simp [PersonalRequestHandler.revoke_token, PersonalRequestHandler.make_request_v2,
      List.lookup]

/-- C8: over every sequence of `make_request`, `make_request_v2` and
`revoke_token` calls, the stored `personal_access_token` stays the token
supplied at construction. -/
theorem C8_personal_token_never_mutated (h : PersonalRequestHandler) (cs : List PCall) :
    (h.run cs).personal_access_token = h.personal_access_token := by
  induction cs with
  | nil => rfl
  | cons c cs ih => cases c <;> exact ih

/-- C9: `OAuthRequestHandler.make_request_v2` is the same function as
`OAuthRequestHandler.make_request`: identical trace and outcome on every
environment, updater, URL and method. -/
theorem C9_make_request_v2_equals_make_request (env : Env) (hasUpdater : Bool)
    (url method : String) :
    OAuthRequestHandler.make_request_v2 env hasUpdater url method =
      OAuthRequestHandler.make_request env hasUpdater url method := rfl

/-- C10: any method string other than exactly "POST" — "PUT", "DELETE" or
lowercase "post" included — makes both personal request methods issue a GET. -/
theorem C10_non_post_methods_issue_get (h : PersonalRequestHandler) (url method : String)
    (hm : method ≠ "POST") :
    (h.make_request url method).verb = .GET ∧
    (h.make_request_v2 url method).verb = .GET := by
  constructor <;>
    simp [PersonalRequestHandler.make_request, PersonalRequestHandler.make_request_v2, hm]

theorem C10_non_post_methods_issue_get_witness :
    (PersonalRequestHandler.make_request ⟨"tok"⟩ "https://api.example/x" "PUT").verb
        = Verb.GET ∧
    (PersonalRequestHandler.make_request_v2 ⟨"tok"⟩ "https://api.example/x" "PUT").verb
        = Verb.GET :=
  C10_non_post_methods_issue_get ⟨"tok"⟩ "https://api.example/x" "PUT" (by decide)

end Oura
